import Mathlib

/-!
Shallow embedding of the pixel_runtime core (Surface, Graphics, App) and
proofs about the properties its specification states.

Machine integers are modelled as `Int` (C++ `int`) and `Nat` (C++ `uint32_t`,
with explicit `% 2^k` where conversions matter).  `PXR_ASSERT` failures are
modelled as `Except.error`: in both build modes a failed assertion stops the
program (abort / clean exit), so an erroring computation never continues.
-/

namespace Pxr

/-- A fatal failure.  `assertFail` is a `PXR_ASSERT` violation
(error_handling.h): both the debug and the release policy report the message
and terminate.  `lengthError` is the `std::length_error` thrown by
`std::vector` when the requested element count exceeds `max_size()`; it is
never caught anywhere in the program, so it likewise terminates the run. -/
inductive Err where
  | assertFail (msg : String)
  | lengthError
deriving DecidableEq, Repr

/-- `pxr::Color` (include/pxr/color.h): a packed 32-bit 0xAARRGGBB value. -/
structure Color where
  value : Nat
deriving DecidableEq, Repr

/-- The `Color(uint8_t red, uint8_t green, uint8_t blue, uint8_t alpha = 255)`
constructor: each argument is a `uint8_t` (hence the `% 256`, which models the
integral conversion applied to wider arguments at the call site), packed as
`(alpha << 24) | (red << 16) | (green << 8) | blue`; the fields are disjoint
bytes, so the bitwise or is addition. -/
def Color.ofRGBA (red green blue alpha : Nat) : Color :=
  ⟨(alpha % 256) * 2 ^ 24 + (red % 256) * 2 ^ 16 + (green % 256) * 2 ^ 8 + blue % 256⟩

/-- `Color::toUInt32()`: returns the packed value. -/
def Color.toUInt32 (c : Color) : Nat := c.value

/-- The expression `Color(p)` for a packed `uint32_t` value `p`, as written in
`Surface::getPixel` (surface.cpp).  `Color` has no constructor taking a
`uint32_t`; overload resolution picks the channel constructor and the packed
value undergoes the `uint32_t → uint8_t` integral conversion (`p % 256`) into
the `red` parameter, the remaining channels taking their defaults
`green = 0, blue = 0, alpha = 255`. -/
def Color.ofPackedNarrowed (p : Nat) : Color :=
  Color.ofRGBA (p % 256) 0 0 255

/-- `pxr::Surface` (include/pxr/surface.h): dimensions plus the row-major
packed pixel buffer `pixels` (`std::vector<uint32_t>`). -/
structure Surface where
  width : Int
  height : Int
  pixels : List Nat
deriving DecidableEq, Repr

/-- `Surface::isInBounds` (surface.cpp):
`x >= 0 && y >= 0 && x < width && y < height`. -/
def Surface.isInBounds (s : Surface) (x y : Int) : Bool :=
  decide (0 ≤ x) && decide (0 ≤ y) && decide (x < s.width) && decide (y < s.height)

/-- The `Surface::Surface(int width, int height, Color backgroundColor)`
constructor.  Its member-initializer list runs first and builds
`pixels(width * height, backgroundColor.toUInt32())`: the `int` count
converts modularly to `size_t`, so a negative `width * height` (one dimension
negative, the other positive) becomes an astronomically large count and the
vector throws `std::length_error` — the body's
`PXR_ASSERT(width > 0 && height > 0, "Surface dimensions must be positive.")`
is never reached in that case.  When `width * height ≥ 0` the allocation
succeeds (the buffer holds `width * height` copies of the packed color) and
the assertion then fires for any non-positive dimension. -/
def Surface.create (width height : Int) (backgroundColor : Color) : Except Err Surface :=
  if width * height < 0 then
    .error .lengthError
  else if 0 < width ∧ 0 < height then
    .ok ⟨width, height, List.replicate (width * height).toNat backgroundColor.toUInt32⟩
  else
    .error (.assertFail "Surface dimensions must be positive.")

/-- `Surface::clear` (surface.cpp): `std::ranges::fill` overwrites every
element of the buffer with `color.toUInt32()`, keeping its length. -/
def Surface.clear (s : Surface) (color : Color) : Surface :=
  { s with pixels := List.replicate s.pixels.length color.toUInt32 }

/-- `Surface::setPixel` (surface.cpp): asserts `isInBounds(x, y)`
("setPixel() out of bounds."), then stores `color.toUInt32()` at index
`y * width + x`. -/
def Surface.setPixel (s : Surface) (x y : Int) (color : Color) : Except Err Surface :=
  if s.isInBounds x y then
    .ok { s with pixels := s.pixels.set (y * s.width + x).toNat color.toUInt32 }
  else
    .error (.assertFail "setPixel() out of bounds.")

/-- `Surface::getPixel` (surface.cpp): asserts `isInBounds(x, y)`
("getPixel() out of bounds."), then returns `Color(pixels[y * width + x])` —
see `Color.ofPackedNarrowed` for that conversion. -/
def Surface.getPixel (s : Surface) (x y : Int) : Except Err Color :=
  if s.isInBounds x y then
    .ok (Color.ofPackedNarrowed (s.pixels.getD (y * s.width + x).toNat 0))
  else
    .error (.assertFail "getPixel() out of bounds.")

/-- `Surface::blitTo` (surface.cpp): for `y` in `[0, height)` and `x` in
`[0, width)` of the source, if `target.isInBounds(dstX + x, dstY + y)` then
`target.setPixel(dstX + x, dstY + y, getPixel(x, y))`, else skip. -/
def Surface.blitTo (src : Surface) (target : Surface) (dstX dstY : Int) : Except Err Surface :=
  (List.range src.height.toNat).foldlM (fun t y =>
    (List.range src.width.toNat).foldlM (fun t x =>
      if t.isInBounds (dstX + (x : Int)) (dstY + (y : Int)) then do
        let c ← src.getPixel (x : Int) (y : Int)
        t.setPixel (dstX + (x : Int)) (dstY + (y : Int)) c
      else
        pure t) t) target

/-! ### Claims about `Surface` -/

/-- Claim C3 (refuted as stated): at `width = -1`, `height = 2` the
constructor fails, but with the vector's length error raised by the
member-initializer allocation of `(size_t)(-1 * 2)` elements — not with the
"Surface dimensions must be positive." assertion, which is never reached. -/
theorem surface_create_mixed_sign_dims :
    Surface.create (-1) 2 (Color.ofRGBA 1 2 3 255) = .error .lengthError ∧
    Surface.create (-1) 2 (Color.ofRGBA 1 2 3 255) ≠
      .error (.assertFail "Surface dimensions must be positive.") := by
  exact ⟨rfl, by simp [Surface.create]⟩

/-- Claim C3 (amended): `Surface` construction fails whenever `width ≤ 0` or
`height ≤ 0`, but the failure is the dimension-assertion error only when
`width * height ≥ 0` (a zero dimension, or both negative), because the
member-initializer allocation runs before the assertion; when
`width * height < 0` (mixed signs) the allocation itself fails with the
vector length error and the assertion never fires.  With both dimensions
positive it succeeds and the buffer has exactly `width * height` elements,
each one the packed initial color. -/
theorem surface_create_spec (w h : Int) (c : Color) :
    ((w ≤ 0 ∨ h ≤ 0) → ∃ e, Surface.create w h c = .error e) ∧
    ((w ≤ 0 ∨ h ≤ 0) → 0 ≤ w * h →
      Surface.create w h c = .error (.assertFail "Surface dimensions must be positive.")) ∧
    (w * h < 0 → Surface.create w h c = .error .lengthError) ∧
    (0 < w → 0 < h →
      ∃ s, Surface.create w h c = .ok s ∧
        s.width = w ∧ s.height = h ∧
        s.pixels.length = w.toNat * h.toNat ∧
        ∀ v ∈ s.pixels, v = c.toUInt32) := by
  have hB : (w ≤ 0 ∨ h ≤ 0) → 0 ≤ w * h →
      Surface.create w h c = .error (.assertFail "Surface dimensions must be positive.") := by
    intro hle hnn
    have hnot : ¬(0 < w ∧ 0 < h) := by omega
    rw [Surface.create, if_neg (not_lt.mpr hnn), if_neg hnot]
  have hC : w * h < 0 → Surface.create w h c = .error .lengthError := by
    intro hneg
    rw [Surface.create, if_pos hneg]
  refine ⟨?_, hB, hC, ?_⟩
  · intro hle
    rcases lt_or_le (w * h) 0 with hneg | hnn
    · exact ⟨_, hC hneg⟩
    · exact ⟨_, hB hle hnn⟩
  · intro hw hh
    have hpos : 0 < w * h := mul_pos hw hh
    refine ⟨_, by rw [Surface.create, if_neg (not_lt.mpr (le_of_lt hpos)), if_pos ⟨hw, hh⟩],
      rfl, rfl, ?_, ?_⟩
    · simp only [List.length_replicate]
      obtain ⟨a, rfl⟩ := Int.eq_ofNat_of_zero_le (le_of_lt hw)
      obtain ⟨b, rfl⟩ := Int.eq_ofNat_of_zero_le (le_of_lt hh)
      rw [← Int.natCast_mul, Int.toNat_natCast, Int.toNat_natCast, Int.toNat_natCast]
    · intro v hv
      exact List.eq_of_mem_replicate hv

/-- Witness for `surface_create_spec`: the three branches at concrete
inputs — `(0, 2)` fails with the dimension error, `(-1, 2)` fails with the
length error, `(3, 2)` succeeds with 6 pixels all holding the packed initial
color. -/
theorem surface_create_spec_witness :
    Surface.create 0 2 (Color.ofRGBA 1 2 3 255) =
      .error (.assertFail "Surface dimensions must be positive.") ∧
    Surface.create (-3) 2 (Color.ofRGBA 1 2 3 255) = .error .lengthError ∧
    ∃ s, Surface.create 3 2 (Color.ofRGBA 1 2 3 255) = .ok s ∧
      s.width = 3 ∧ s.height = 2 ∧
      s.pixels.length = (3 : Int).toNat * (2 : Int).toNat ∧
      ∀ v ∈ s.pixels, v = (Color.ofRGBA 1 2 3 255).toUInt32 :=
  ⟨(surface_create_spec 0 2 (Color.ofRGBA 1 2 3 255)).2.1 (Or.inl (by decide)) (by decide),
   (surface_create_spec (-3) 2 (Color.ofRGBA 1 2 3 255)).2.2.1 (by decide),
   (surface_create_spec 3 2 (Color.ofRGBA 1 2 3 255)).2.2.2 (by decide) (by decide)⟩

/-- Claim C8: `setPixel`/`getPixel` fail with their bounds-violation errors
exactly on out-of-bounds coordinates, and both succeed on every in-bounds
coordinate. -/
theorem pixel_access_bounds (s : Surface) (x y : Int) (c : Color) :
    ((x < 0 ∨ y < 0 ∨ s.width ≤ x ∨ s.height ≤ y) →
      s.setPixel x y c = .error (.assertFail "setPixel() out of bounds.") ∧
      s.getPixel x y = .error (.assertFail "getPixel() out of bounds.")) ∧
    (0 ≤ x → 0 ≤ y → x < s.width → y < s.height →
      (∃ s1, s.setPixel x y c = .ok s1) ∧ ∃ c1, s.getPixel x y = .ok c1) := by
  constructor
  · intro hout
    have hb : s.isInBounds x y = false := by
      simp only [Surface.isInBounds, Bool.and_eq_false_iff, decide_eq_false_iff_not, not_le,
        not_lt]
      omega
    rw [Surface.setPixel, Surface.getPixel, hb]
    exact ⟨rfl, rfl⟩
  · intro hx hy hxw hyh
    have hb : s.isInBounds x y = true := by
      simp only [Surface.isInBounds, Bool.and_eq_true, decide_eq_true_eq]
      exact ⟨⟨⟨hx, hy⟩, hxw⟩, hyh⟩
    rw [Surface.setPixel, Surface.getPixel, hb]
    exact ⟨⟨_, rfl⟩, _, rfl⟩

/-- Witness for `pixel_access_bounds` on a 2×2 surface: out-of-bounds at
`(5, 0)`, in-bounds at `(1, 1)`. -/
theorem pixel_access_bounds_witness :
    ((Surface.mk 2 2 [0, 0, 0, 0]).setPixel 5 0 (Color.ofRGBA 9 9 9 255) =
        .error (.assertFail "setPixel() out of bounds.") ∧
      (Surface.mk 2 2 [0, 0, 0, 0]).getPixel 5 0 =
        .error (.assertFail "getPixel() out of bounds.")) ∧
    (∃ s1, (Surface.mk 2 2 [0, 0, 0, 0]).setPixel 1 1 (Color.ofRGBA 9 9 9 255) = .ok s1) ∧
    ∃ c1, (Surface.mk 2 2 [0, 0, 0, 0]).getPixel 1 1 = .ok c1 :=
  ⟨(pixel_access_bounds (Surface.mk 2 2 [0, 0, 0, 0]) 5 0 (Color.ofRGBA 9 9 9 255)).1
      (Or.inr (Or.inr (Or.inl (by decide)))),
   (pixel_access_bounds (Surface.mk 2 2 [0, 0, 0, 0]) 1 1 (Color.ofRGBA 9 9 9 255)).2
      (by decide) (by decide) (by decide) (by decide)⟩

/-- Claim C1 (refuted): the `setPixel`/`getPixel` round trip does not return
the written color.  On a 1×1 surface, writing `Color(10, 20, 30)` (packed
`0xFF0A141E`) and reading it back yields `Color(30, 0, 0, 255)` (packed
`0xFF1E0000`), because `getPixel` builds `Color(pixels[...])` and the packed
`uint32_t` narrows into the constructor's `uint8_t red` parameter. -/
theorem getPixel_narrows_packed_value :
    (do
      let s0 ← Surface.create 1 1 (Color.ofRGBA 0 0 0 255)
      let s1 ← s0.setPixel 0 0 (Color.ofRGBA 10 20 30 255)
      s1.getPixel 0 0) = Except.ok (Color.ofRGBA 30 0 0 255) ∧
    Color.ofRGBA 30 0 0 255 ≠ Color.ofRGBA 10 20 30 255 := by
  constructor
  · rfl
  · decide

/-- Claim C2 (partly refuted): `blitTo` does not copy source pixels exactly.
Blitting a 1×1 source holding packed `0xFF0A141E` (`Color(10, 20, 30)`) onto a
1×1 black target at offset (0,0) leaves the target holding `0xFF1E0000`, the
channel-corrupted value produced by `getPixel`'s narrowing conversion.  The
out-of-bounds half of the claim does hold: the same blit at offset (5,5)
silently skips and returns the target unchanged. -/
theorem blitTo_copies_narrowed_value :
    (do
      let src ← Surface.create 1 1 (Color.ofRGBA 10 20 30 255)
      let tgt ← Surface.create 1 1 (Color.ofRGBA 0 0 0 255)
      src.blitTo tgt 0 0) =
      Except.ok (Surface.mk 1 1 [(Color.ofRGBA 30 0 0 255).toUInt32]) ∧
    (Color.ofRGBA 30 0 0 255).toUInt32 ≠ (Color.ofRGBA 10 20 30 255).toUInt32 ∧
    (do
      let src ← Surface.create 1 1 (Color.ofRGBA 10 20 30 255)
      let tgt ← Surface.create 1 1 (Color.ofRGBA 0 0 0 255)
      src.blitTo tgt 5 5) =
      Except.ok (Surface.mk 1 1 [(Color.ofRGBA 0 0 0 255).toUInt32]) := by
  refine ⟨rfl, by decide, rfl⟩

/-! ### The application lifecycle (`pxr::App`, src/app.cpp) -/

/-- The slice of the external `Input` collaborator that `App` reads: the raw
mouse position in window coordinates (`getMouseWindowX/Y`). -/
structure InputState where
  mouseWindowX : Int
  mouseWindowY : Int
deriving DecidableEq, Repr

/-- `pxr::App` state (include/pxr/app.h): the Setup-time configuration, the
run flags, and the optional `surface`/`input` subsystems (`nullptr` before
`run()` constructs them, modelled as `none`). -/
structure App where
  width : Int
  height : Int
  pixelSize : Int
  backgroundColor : Color
  title : String
  vsyncEnabled : Bool
  inSetupPhase : Bool
  shouldExit : Bool
  frameCount : Nat
  surface : Option Surface
  input : Option InputState
deriving DecidableEq, Repr

/-- The member-initializer defaults of `App` (app.h lines 277-295). -/
def App.initial : App :=
  { width := 400, height := 400, pixelSize := 1,
    backgroundColor := Color.ofRGBA 0 0 0 255, title := "Pixel Runtime",
    vsyncEnabled := true, inSetupPhase := false, shouldExit := false,
    frameCount := 0, surface := none, input := none }

/-- `App::enforceSetupCall` (app.cpp): asserts `inSetupPhase` with the message
`funcName + " must be called inside setup()"`. -/
def App.enforceSetupCall (a : App) (funcName : String) : Except Err Unit :=
  if a.inSetupPhase then .ok () else
    .error (.assertFail (funcName ++ " must be called inside setup()"))

/-- `App::setVSync` (app.cpp). -/
def App.setVSync (a : App) (enabled : Bool) : Except Err App := do
  a.enforceSetupCall "setVSync"
  .ok { a with vsyncEnabled := enabled }

/-- `App::setSize` (app.cpp). -/
def App.setSize (a : App) (w h : Int) : Except Err App := do
  a.enforceSetupCall "setSize"
  .ok { a with width := w, height := h }

/-- `App::setPixelSize` (app.cpp): note there is no range check on `size`. -/
def App.setPixelSize (a : App) (size : Int) : Except Err App := do
  a.enforceSetupCall "setPixelSize"
  .ok { a with pixelSize := size }

/-- `App::setTitle` (app.cpp). -/
def App.setTitle (a : App) (t : String) : Except Err App := do
  a.enforceSetupCall "setTitle"
  .ok { a with title := t }

/-- `App::background` (app.cpp): stores the color; clears the surface only
when one exists. -/
def App.background (a : App) (color : Color) : Except Err App :=
  let a1 := { a with backgroundColor := color }
  match a1.surface with
  | some s => .ok { a1 with surface := some (s.clear color) }
  | none => .ok a1

/-- `App::drawPixel` (app.cpp): `if (surface) surface->setPixel(x, y, color)`;
a missing surface is a silent no-op. -/
def App.drawPixel (a : App) (x y : Int) (color : Color) : Except Err App :=
  match a.surface with
  | some s => do
      let s1 ← s.setPixel x y color
      .ok { a with surface := some s1 }
  | none => .ok a

/-- `App::drawSurface` (app.cpp): `if (surface) src.blitTo(*surface, x, y)`;
a missing surface is a silent no-op. -/
def App.drawSurface (a : App) (src : Surface) (x y : Int) : Except Err App :=
  match a.surface with
  | some s => do
      let s1 ← src.blitTo s x y
      .ok { a with surface := some s1 }
  | none => .ok a

/-- `App::getMouseX` (app.cpp): `input ? input->getMouseWindowX() / pixelSize : 0`;
C++ `int` division truncates toward zero (`Int.tdiv`), with no guard against
`pixelSize == 0`. -/
def App.getMouseX (a : App) : Int :=
  match a.input with
  | some i => Int.tdiv i.mouseWindowX a.pixelSize
  | none => 0

/-- `App::getMouseY` (app.cpp), as `App.getMouseX`. -/
def App.getMouseY (a : App) : Int :=
  match a.input with
  | some i => Int.tdiv i.mouseWindowY a.pixelSize
  | none => 0

/-- The Setup → Running transition inside `App::run` (app.cpp lines 38-47):
after `setup()` returns, `inSetupPhase` is cleared and the `Surface` is
constructed from the configured size and `backgroundColor` (the window, input
and graphics collaborators are outside this model's claims). -/
def App.startRunning (a : App) : Except Err App :=
  match Surface.create a.width a.height a.backgroundColor with
  | .ok s => .ok { a with inSetupPhase := false, surface := some s }
  | .error e => .error e

/-- The frame-timing accumulators of `App::run` (app.cpp lines 30-73):
`frameCount`, the window counters `fpsCounter`/`fpsTimer`, and the published
`fps`.  The C++ `float` quantities are modelled as exact rationals. -/
structure LoopTimerState where
  frameCount : Nat
  fpsCounter : Nat
  fpsTimer : ℚ
  fps : ℚ
deriving DecidableEq, Repr

/-- The end-of-iteration timing update of `App::run` (app.cpp lines 64-72):
increment `frameCount` and `fpsCounter`, accumulate `deltaTime` into
`fpsTimer`; when `fpsTimer >= 1.0`, publish `fps = fpsCounter / fpsTimer` and
reset both accumulators, otherwise leave `fps` untouched. -/
def loopTimerStep (s : LoopTimerState) (deltaTime : ℚ) : LoopTimerState :=
  let fc := s.frameCount + 1
  let n := s.fpsCounter + 1
  let t := s.fpsTimer + deltaTime
  if 1 ≤ t then
    { frameCount := fc, fpsCounter := 0, fpsTimer := 0, fps := (n : ℚ) / t }
  else
    { frameCount := fc, fpsCounter := n, fpsTimer := t, fps := s.fps }

/-! ### The GPU pipeline (`pxr::Graphics`, src/graphics.cpp, src/graphics.h) -/

/-- `pxr::Graphics` state (graphics.h lines 98-106): the texture and the two
pixel transfer buffers are modelled by their contents (`[]` when the GL handle
is 0, i.e. not allocated); `quadReady`/`shaderReady` stand for the vao/vbo and
shader program handles. -/
structure Graphics where
  width : Int
  height : Int
  currentPBO : Int
  texture : List Nat
  pbo0 : List Nat
  pbo1 : List Nat
  quadReady : Bool
  shaderReady : Bool
deriving DecidableEq, Repr

/-- A freshly constructed `Graphics` (all handles 0, `currentPBO = 0`). -/
def Graphics.initial : Graphics :=
  { width := 0, height := 0, currentPBO := 0, texture := [], pbo0 := [], pbo1 := [],
    quadReady := false, shaderReady := false }

/-- `Graphics::initialize` (graphics.cpp): records the surface dimensions and
allocates the texture, the two transfer buffers (each sized to the full pixel
payload, contents indeterminate — modelled as zeros), the quad and the
shaders.  `currentPBO` is not touched. -/
def Graphics.initResources (g : Graphics) (s : Surface) : Graphics :=
  { g with
    width := s.width
    height := s.height
    texture := List.replicate (s.width * s.height).toNat 0
    pbo0 := List.replicate (s.width * s.height).toNat 0
    pbo1 := List.replicate (s.width * s.height).toNat 0
    quadReady := true
    shaderReady := true }

/-- `Graphics::destroy` (graphics.cpp): releases every GL resource and zeroes
the handles.  `currentPBO`, `width` and `height` are not touched. -/
def Graphics.destroyResources (g : Graphics) : Graphics :=
  { g with texture := [], pbo0 := [], pbo1 := [], quadReady := false, shaderReady := false }

/-- `Graphics::upload` (graphics.cpp): asserts the surface dimensions match
("Surface size mismatch."), advances `currentPBO = (currentPBO + 1) % 2`
(C++ `%` is `Int.tmod`), maps the *new* buffer and copies the full packed
payload into it, then updates the texture from that buffer. -/
def Graphics.upload (g : Graphics) (s : Surface) : Except Err Graphics :=
  if s.width = g.width ∧ s.height = g.height then
    let c := Int.tmod (g.currentPBO + 1) 2
    .ok { g with
      currentPBO := c
      pbo0 := if c = 0 then s.pixels else g.pbo0
      pbo1 := if c = 0 then g.pbo1 else s.pixels
      texture := s.pixels }
  else
    .error (.assertFail "Surface size mismatch.")

/-- `n` successive `Graphics::upload` calls with the same surface. -/
def Graphics.uploadN (g : Graphics) (s : Surface) : Nat → Except Err Graphics
  | 0 => .ok g
  | n + 1 => do
      let g1 ← g.uploadN s n
      g1.upload s

/-- The observable events of `Graphics::resize`: one full resource teardown,
or one reinitialization at the given dimensions. -/
inductive GfxEvent where
  | destroyEvt
  | initEvt (w h : Int)
deriving DecidableEq, Repr

/-- `Graphics::resize` (graphics.cpp): returns unchanged when the surface
dimensions equal the current ones; otherwise calls `destroy()` and then
`initialize(surface)`.  The second component records the destroy/initialize
calls made, in order. -/
def Graphics.resize (g : Graphics) (s : Surface) : Graphics × List GfxEvent :=
  if s.width = g.width ∧ s.height = g.height then
    (g, [])
  else
    ((g.destroyResources).initResources s, [.destroyEvt, .initEvt s.width s.height])

/-! ### Claims about `App` -/

/-- Claim C4: every configuration setter succeeds and stores its value during
the Setup phase, and fails with the precondition-violation message outside it;
the Setup → Running transition (after which the per-frame callback runs)
leaves `inSetupPhase = false`. -/
theorem setters_require_setup (a : App) (w h ps : Int) (t : String) (b : Bool) :
    (a.inSetupPhase = true →
      a.setSize w h = .ok { a with width := w, height := h } ∧
      a.setPixelSize ps = .ok { a with pixelSize := ps } ∧
      a.setTitle t = .ok { a with title := t } ∧
      a.setVSync b = .ok { a with vsyncEnabled := b }) ∧
    (a.inSetupPhase = false →
      a.setSize w h = .error (.assertFail "setSize must be called inside setup()") ∧
      a.setPixelSize ps = .error (.assertFail "setPixelSize must be called inside setup()") ∧
      a.setTitle t = .error (.assertFail "setTitle must be called inside setup()") ∧
      a.setVSync b = .error (.assertFail "setVSync must be called inside setup()")) ∧
    ∀ a1, a.startRunning = .ok a1 → a1.inSetupPhase = false := by
  refine ⟨fun hin => ?_, fun hout => ?_, fun a1 h1 => ?_⟩
  · simp [App.setSize, App.setPixelSize, App.setTitle, App.setVSync, App.enforceSetupCall, hin,
      Bind.bind, Except.bind]
  · simp [App.setSize, App.setPixelSize, App.setTitle, App.setVSync, App.enforceSetupCall, hout,
      Bind.bind, Except.bind]
  · unfold App.startRunning at h1
    split at h1
    · cases h1
      rfl
    · cases h1

/-- Witness for `setters_require_setup`: an app inside `setup()` accepts the
setters, the same app outside `setup()` rejects them. -/
theorem setters_require_setup_witness :
    ({ App.initial with inSetupPhase := true } : App).setSize 8 6 =
      .ok { App.initial with inSetupPhase := true, width := 8, height := 6 } ∧
    App.initial.setSize 8 6 =
      .error (.assertFail "setSize must be called inside setup()") :=
  ⟨((setters_require_setup { App.initial with inSetupPhase := true } 8 6 2 "t" true).1 rfl).1,
   ((setters_require_setup App.initial 8 6 2 "t" true).2.1 rfl).1⟩

/-- Claim C9: `setPixelSize` stores any integer during Setup — zero and
negative values included, there is no range check — and the logical mouse
coordinates are the raw window coordinates divided by the stored pixel size
with C++ truncating division (`Int.tdiv`) and no guard against a zero pixel
size (the quotient is taken no matter what `pixelSize` holds). -/
theorem setPixelSize_unchecked_mouse_division (a : App) (sz : Int) (i : InputState) :
    (a.inSetupPhase = true → a.setPixelSize sz = .ok { a with pixelSize := sz }) ∧
    (a.input = some i →
      a.getMouseX = Int.tdiv i.mouseWindowX a.pixelSize ∧
      a.getMouseY = Int.tdiv i.mouseWindowY a.pixelSize) := by
  refine ⟨fun hin => ?_, fun hinp => ?_⟩
  · simp [App.setPixelSize, App.enforceSetupCall, hin, Bind.bind, Except.bind]
  · rw [App.getMouseX, App.getMouseY, hinp]
    exact ⟨rfl, rfl⟩

/-- Witness for `setPixelSize_unchecked_mouse_division`: pixel size 0 is
accepted during Setup, and with stored pixel size 2 the raw mouse position
(-7, 7) maps to (-3, 3) — truncation toward zero, not floor. -/
theorem setPixelSize_unchecked_mouse_division_witness :
    ({ App.initial with inSetupPhase := true } : App).setPixelSize 0 =
      .ok { App.initial with inSetupPhase := true, pixelSize := 0 } ∧
    ({ App.initial with pixelSize := 2, input := some ⟨-7, 7⟩ } : App).getMouseX = -3 ∧
    ({ App.initial with pixelSize := 2, input := some ⟨-7, 7⟩ } : App).getMouseY = 3 := by
  have h1 := (setPixelSize_unchecked_mouse_division
    { App.initial with inSetupPhase := true } 0 ⟨0, 0⟩).1 rfl
  have h2 := (setPixelSize_unchecked_mouse_division
    { App.initial with pixelSize := 2, input := some ⟨-7, 7⟩ } 0 ⟨-7, 7⟩).2 rfl
  refine ⟨h1, ?_, ?_⟩
  · rw [h2.1]
    decide
  · rw [h2.2]
    decide

/-- Claim C10: with no surface constructed yet (`surface = none`, as inside
`setup()`), `drawPixel` and `drawSurface` return silently with no error and no
state change, and `background` only records the color; the Setup → Running
transition then initializes every pixel of the fresh surface from that
recorded color. -/
theorem draw_before_surface_noop (a : App) (x y : Int) (c : Color) (src : Surface)
    (hs : a.surface = none) :
    a.drawPixel x y c = .ok a ∧
    a.drawSurface src x y = .ok a ∧
    a.background c = .ok { a with backgroundColor := c } ∧
    (0 < a.width → 0 < a.height →
      App.startRunning { a with backgroundColor := c } =
        .ok { a with
          backgroundColor := c
          inSetupPhase := false
          surface := some (Surface.mk a.width a.height
            (List.replicate (a.width * a.height).toNat c.toUInt32)) }) := by
  refine ⟨?_, ?_, ?_, fun hw hh => ?_⟩
  · rw [App.drawPixel, hs]
  · rw [App.drawSurface, hs]
  · rw [App.background]
    simp only [hs]
  · rw [App.startRunning]
    simp only [Surface.create, Color.toUInt32]
    rw [if_neg (not_lt.mpr (le_of_lt (mul_pos hw hh))), if_pos ⟨hw, hh⟩]

/-- Witness for `draw_before_surface_noop` at the default-constructed `App`
(no surface yet) with color `Color(255, 0, 0)`. -/
theorem draw_before_surface_noop_witness :
    App.initial.drawPixel 1 2 (Color.ofRGBA 255 0 0 255) = .ok App.initial ∧
    App.initial.drawSurface (Surface.mk 1 1 [0]) 0 0 = .ok App.initial ∧
    App.initial.background (Color.ofRGBA 255 0 0 255) =
      .ok { App.initial with backgroundColor := Color.ofRGBA 255 0 0 255 } ∧
    App.startRunning { App.initial with backgroundColor := Color.ofRGBA 255 0 0 255 } =
      .ok { App.initial with
        backgroundColor := Color.ofRGBA 255 0 0 255
        inSetupPhase := false
        surface := some (Surface.mk App.initial.width App.initial.height
          (List.replicate (App.initial.width * App.initial.height).toNat
            (Color.ofRGBA 255 0 0 255).toUInt32)) } := by
  have h := draw_before_surface_noop App.initial 1 2 (Color.ofRGBA 255 0 0 255)
    (Surface.mk 1 1 [0]) rfl
  exact ⟨h.1, h.2.1, h.2.2.1, h.2.2.2 (by decide) (by decide)⟩

/-- Claim C7: one Running-loop iteration recomputes the published FPS exactly
when the accumulated time reaches 1.0 s, publishing accumulated-frames ÷
accumulated-time (not the reciprocal of the last delta) and resetting both
accumulators; below the threshold the published FPS is untouched and the
accumulators grow. -/
theorem fps_window_recompute (s : LoopTimerState) (delta : ℚ) :
    (1 ≤ s.fpsTimer + delta →
      (loopTimerStep s delta).fps = ((s.fpsCounter + 1 : ℕ) : ℚ) / (s.fpsTimer + delta) ∧
      (loopTimerStep s delta).fpsCounter = 0 ∧
      (loopTimerStep s delta).fpsTimer = 0) ∧
    (s.fpsTimer + delta < 1 →
      (loopTimerStep s delta).fps = s.fps ∧
      (loopTimerStep s delta).fpsCounter = s.fpsCounter + 1 ∧
      (loopTimerStep s delta).fpsTimer = s.fpsTimer + delta) ∧
    (loopTimerStep s delta).frameCount = s.frameCount + 1 := by
  unfold loopTimerStep
  by_cases h : 1 ≤ s.fpsTimer + delta
  · rw [if_pos h]
    exact ⟨fun _ => ⟨rfl, rfl, rfl⟩, fun hlt => absurd h (not_le_of_lt hlt), rfl⟩
  · rw [if_neg h]
    exact ⟨fun hge => absurd hge h, fun _ => ⟨rfl, rfl, rfl⟩, rfl⟩

/-- Witness for `fps_window_recompute`: 5 frames accumulated over 0.8 s, one
more frame of 0.4 s crosses the 1-second window: FPS becomes 6 / 1.2 = 5 and
the accumulators reset; a 0.1 s frame instead leaves the published FPS at its
old value 42. -/
theorem fps_window_recompute_witness :
    (loopTimerStep ⟨9, 5, 8/10, 42⟩ (4/10)).fps = ((5 + 1 : ℕ) : ℚ) / (8/10 + 4/10) ∧
    (loopTimerStep ⟨9, 5, 8/10, 42⟩ (4/10)).fpsCounter = 0 ∧
    (loopTimerStep ⟨9, 5, 8/10, 42⟩ (4/10)).fpsTimer = 0 ∧
    (loopTimerStep ⟨9, 5, 8/10, 42⟩ (1/10)).fps = 42 ∧
    (loopTimerStep ⟨9, 5, 8/10, 42⟩ (1/10)).fpsCounter = 6 := by
  have h1 := (fps_window_recompute ⟨9, 5, 8/10, 42⟩ (4/10)).1 (by norm_num)
  have h2 := (fps_window_recompute ⟨9, 5, 8/10, 42⟩ (1/10)).2.1 (by norm_num)
  exact ⟨h1.1, h1.2.1, h1.2.2, h2.1, h2.2.1⟩

/-! ### Claims about `Graphics` -/

/-- Unfolding of `Graphics.upload` when the surface dimensions match. -/
theorem Graphics.upload_eq (g : Graphics) (s : Surface)
    (hw : s.width = g.width) (hh : s.height = g.height) :
    g.upload s = .ok { g with
      currentPBO := Int.tmod (g.currentPBO + 1) 2
      pbo0 := if Int.tmod (g.currentPBO + 1) 2 = 0 then s.pixels else g.pbo0
      pbo1 := if Int.tmod (g.currentPBO + 1) 2 = 0 then g.pbo1 else s.pixels
      texture := s.pixels } := by
  rw [Graphics.upload, if_pos ⟨hw, hh⟩]

/-- One matching upload from a state whose buffer index is 0 or 1: it
succeeds, flips the index to the other buffer, writes the full payload into
the newly indexed buffer, and preserves the pipeline dimensions. -/
theorem Graphics.upload_advance (g : Graphics) (s : Surface)
    (hw : s.width = g.width) (hh : s.height = g.height)
    (hor : g.currentPBO = 0 ∨ g.currentPBO = 1) :
    ∃ g1, g.upload s = .ok g1 ∧
      g1.currentPBO = Int.tmod (g.currentPBO + 1) 2 ∧
      g1.currentPBO ≠ g.currentPBO ∧
      (g1.currentPBO = 0 ∨ g1.currentPBO = 1) ∧
      g1.width = g.width ∧ g1.height = g.height ∧
      (if g1.currentPBO = 0 then g1.pbo0 else g1.pbo1) = s.pixels := by
  refine ⟨_, Graphics.upload_eq g s hw hh, rfl, ?_, ?_, rfl, rfl, ?_⟩
  · show Int.tmod (g.currentPBO + 1) 2 ≠ g.currentPBO
    rcases hor with h | h <;> rw [h] <;> decide
  · show Int.tmod (g.currentPBO + 1) 2 = 0 ∨ Int.tmod (g.currentPBO + 1) 2 = 1
    rcases hor with h | h <;> rw [h]
    · exact Or.inr (by decide)
    · exact Or.inl (by decide)
  · dsimp only
    rcases hor with h | h <;> rw [h]
    · simp [show Int.tmod ((0 : Int) + 1) 2 = 1 from by decide,
        show Int.tmod (1 : Int) 2 = 1 from by decide]
    · simp [show Int.tmod ((1 : Int) + 1) 2 = 0 from by decide,
        show Int.tmod (2 : Int) 2 = 0 from by decide]

/-- Claim C5: starting from buffer index 0, the `n`-fold upload of a
matching surface succeeds, and after the `n`-th upload the active index is
`n mod 2` (hence always 0 or 1); the next upload always flips to the other
buffer and writes the payload into the newly active buffer, so two
consecutive uploads never use the same transfer buffer. -/
theorem upload_ping_pong (g : Graphics) (s : Surface)
    (h0 : g.currentPBO = 0) (hw : s.width = g.width) (hh : s.height = g.height) (n : Nat) :
    ∃ gn : Graphics,
      g.uploadN s n = .ok gn ∧
      gn.currentPBO = ((n % 2 : Nat) : Int) ∧
      (gn.currentPBO = 0 ∨ gn.currentPBO = 1) ∧
      gn.width = g.width ∧ gn.height = g.height ∧
      ∀ g1, gn.upload s = .ok g1 →
        g1.currentPBO ≠ gn.currentPBO ∧
        (if g1.currentPBO = 0 then g1.pbo0 else g1.pbo1) = s.pixels := by
  induction n with
  | zero =>
    refine ⟨g, rfl, by simp [h0], Or.inl h0, rfl, rfl, fun g1 hg1 => ?_⟩
    obtain ⟨g1x, heq, _, hne, _, _, _, hwrit⟩ := Graphics.upload_advance g s hw hh (Or.inl h0)
    rw [heq] at hg1
    cases hg1
    exact ⟨hne, hwrit⟩
  | succ n ih =>
    obtain ⟨gn, hrun, hcur, hor, hwn, hhn, _⟩ := ih
    obtain ⟨g1, heq, hflip, hne, hor1, hw1, hh1, hwrit⟩ :=
      Graphics.upload_advance gn s (hw.trans hwn.symm) (hh.trans hhn.symm) hor
    have hrun1 : g.uploadN s (n + 1) = .ok g1 := by
      rw [Graphics.uploadN, hrun]
      simpa using heq
    have hcur1 : g1.currentPBO = (((n + 1) % 2 : Nat) : Int) := by
      rcases Nat.mod_two_eq_zero_or_one n with hn | hn
      · have hsucc : (n + 1) % 2 = 1 := by omega
        rw [hflip, hcur, hn, hsucc]
        decide
      · have hsucc : (n + 1) % 2 = 0 := by omega
        rw [hflip, hcur, hn, hsucc]
        decide
    refine ⟨g1, hrun1, hcur1, hor1, hw1.trans hwn, hh1.trans hhn, fun g2 hg2 => ?_⟩
    obtain ⟨g2x, heq2, _, hne2, _, _, _, hwrit2⟩ :=
      Graphics.upload_advance g1 s (hw.trans (hw1.trans hwn).symm)
        (hh.trans (hh1.trans hhn).symm) hor1
    rw [heq2] at hg2
    cases hg2
    exact ⟨hne2, hwrit2⟩

/-- Witness for `upload_ping_pong`: a 2×2 pipeline, a matching 2×2 surface,
three uploads. -/
theorem upload_ping_pong_witness :
    ∃ gn : Graphics,
      (Graphics.initial.initResources (Surface.mk 2 2 [0, 0, 0, 0])).uploadN
        (Surface.mk 2 2 [1, 2, 3, 4]) 3 = .ok gn ∧
      gn.currentPBO = ((3 % 2 : Nat) : Int) ∧
      (gn.currentPBO = 0 ∨ gn.currentPBO = 1) ∧
      gn.width = (Graphics.initial.initResources (Surface.mk 2 2 [0, 0, 0, 0])).width ∧
      gn.height = (Graphics.initial.initResources (Surface.mk 2 2 [0, 0, 0, 0])).height ∧
      ∀ g1, gn.upload (Surface.mk 2 2 [1, 2, 3, 4]) = .ok g1 →
        g1.currentPBO ≠ gn.currentPBO ∧
        (if g1.currentPBO = 0 then g1.pbo0 else g1.pbo1) =
          (Surface.mk 2 2 [1, 2, 3, 4]).pixels :=
  upload_ping_pong (Graphics.initial.initResources (Surface.mk 2 2 [0, 0, 0, 0]))
    (Surface.mk 2 2 [1, 2, 3, 4]) rfl rfl rfl 3

/-- Claim C6: `resize` with unchanged dimensions returns the pipeline
untouched with no destroy/initialize event (hence repeating it is also a
no-op); with changed dimensions it performs exactly one full teardown followed
by exactly one reinitialization at the new dimensions. -/
theorem resize_noop_or_recreate (g : Graphics) (s : Surface) :
    (s.width = g.width ∧ s.height = g.height →
      g.resize s = (g, []) ∧ (g.resize s).1.resize s = (g, [])) ∧
    (¬(s.width = g.width ∧ s.height = g.height) →
      (g.resize s).1 = (g.destroyResources).initResources s ∧
      (g.resize s).1.width = s.width ∧
      (g.resize s).1.height = s.height ∧
      (g.resize s).2 = [GfxEvent.destroyEvt, GfxEvent.initEvt s.width s.height] ∧
      List.count GfxEvent.destroyEvt (g.resize s).2 = 1 ∧
      List.count (GfxEvent.initEvt s.width s.height) (g.resize s).2 = 1) := by
  constructor
  · intro hsame
    rw [Graphics.resize, if_pos hsame]
    exact ⟨rfl, by rw [Graphics.resize, if_pos hsame]⟩
  · intro hdiff
    rw [Graphics.resize, if_neg hdiff]
    refine ⟨rfl, rfl, rfl, rfl, ?_, ?_⟩
    · simp [List.count_cons]
    · simp [List.count_cons]

/-- Witness for `resize_noop_or_recreate`: a 2×2 pipeline resized to 2×2
(no-op) and to 3×1 (one destroy, one reinitialization). -/
theorem resize_noop_or_recreate_witness :
    (Graphics.initial.initResources (Surface.mk 2 2 [0, 0, 0, 0])).resize
      (Surface.mk 2 2 [5, 6, 7, 8]) =
      (Graphics.initial.initResources (Surface.mk 2 2 [0, 0, 0, 0]), []) ∧
    ((Graphics.initial.initResources (Surface.mk 2 2 [0, 0, 0, 0])).resize
      (Surface.mk 3 1 [5, 6, 7])).2 =
      [GfxEvent.destroyEvt, GfxEvent.initEvt 3 1] ∧
    ((Graphics.initial.initResources (Surface.mk 2 2 [0, 0, 0, 0])).resize
      (Surface.mk 3 1 [5, 6, 7])).1.width = 3 :=
  ⟨((resize_noop_or_recreate (Graphics.initial.initResources (Surface.mk 2 2 [0, 0, 0, 0]))
      (Surface.mk 2 2 [5, 6, 7, 8])).1 ⟨rfl, rfl⟩).1,
   ((resize_noop_or_recreate (Graphics.initial.initResources (Surface.mk 2 2 [0, 0, 0, 0]))
      (Surface.mk 3 1 [5, 6, 7])).2 (by decide)).2.2.2.1,
   ((resize_noop_or_recreate (Graphics.initial.initResources (Surface.mk 2 2 [0, 0, 0, 0]))
      (Surface.mk 3 1 [5, 6, 7])).2 (by decide)).2.1⟩

end Pxr
